import Mathlib

/-!
Verification development for the RAUX two-stage Windows installer
(`src/installer/raux_installer.py`, the Bootstrap stage, and
`src/installer/ux_installer/install.py`, the Provisioning stage).

The Python code is sequential orchestration of filesystem, network and
subprocess operations.  We shallowly embed it: every I/O operation whose
outcome the code branches on becomes a field of an environment record (an
oracle fixed before the run), and each stage becomes a total Lean function
from that environment to a result together with the list of observable
events (network requests, subprocess invocations, file copies) it performs,
in program order.  Exceptions raised by the Python code (`ValueError`,
`requests` errors, ...) become `Except` errors; the error constructors
mirror the `raise` sites of the source.  The log-file lifecycle of the
Bootstrap stage (handler creation, forced-append logic, mid-run handler
re-creation) is embedded separately as a sequence of open/write operations
on the log file's content, following `DebugFileHandler.__init__` and the
logging set-up/reset code of `install_raux`.
-/

namespace Raux

/-- Byte content of a file, abstracted as a string. -/
abbrev Bytes := String

/-- Observable side effects of a run, in program order.  `network` is an
HTTP GET issued via `requests.get`; `subproc` a `subprocess.run` call;
`copy` a `shutil.copy2`; `shortcut` the PowerShell shortcut invocation of
the Provisioning stage (recorded with the `.lnk` path, target and icon). -/
inductive Event where
  | network (url : String)
  | subproc (cmd : List String)
  | copy (src dst : String)
  | shortcut (lnk target icon : String)
deriving DecidableEq, Repr

/-- True when `needle` matches the beginning of `hay` (on character lists);
used to embed Python's substring operator `in`. -/
def matchesAt (needle hay : List Char) : Bool :=
  match needle, hay with
  | [], _ => true
  | _ :: _, [] => false
  | a :: as, b :: bs => a == b && matchesAt as bs

/-- True when `needle` occurs somewhere in `hay`; embeds Python's
`needle in hay` substring test on character lists. -/
def subAt (needle hay : List Char) : Bool :=
  match hay with
  | [] => matchesAt needle []
  | _ :: t => matchesAt needle hay || subAt needle t

/-- Python's `needle in hay` substring containment on strings. -/
def strIn (needle hay : String) : Bool :=
  subAt needle.toList hay.toList

/-- Python's `s.startswith(pre)`. -/
def pyStartsWith (s pre : String) : Bool :=
  matchesAt pre.toList s.toList

/-- Python's `s.endswith(suf)`. -/
def pyEndsWith (s suf : String) : Bool :=
  matchesAt suf.toList.reverse s.toList.reverse

/-- Python's `s.lower()`; the asset names involved are ASCII, for which
per-character lowering coincides with Python's `str.lower`. -/
def pyToLower (s : String) : String :=
  String.mk (s.toList.map Char.toLower)

/-- One release asset of the GitHub "latest release" JSON document:
a `name` and a `browser_download_url` (`raux_installer.py:499-511`). -/
structure Asset where
  name : String
  browser_download_url : String
deriving DecidableEq, Repr

/-- The fields of the latest-release JSON document that
`get_latest_release_url` reads: the asset list (`.get("assets", [])`)
and the optional `zipball_url` (`raux_installer.py:498-515`). -/
structure ReleaseInfo where
  assets : List Asset
  zipball_url : Option String
deriving DecidableEq, Repr

/-- Outcome of the `requests.get` against the latest-release endpoint:
either a response with a status code and parsed body, or a raised
exception (`raux_installer.py:492-495, 522-528`). -/
inductive HttpResp where
  | ok (status : Nat) (info : ReleaseInfo)
  | exn
deriving DecidableEq, Repr

/-- The `raise ValueError` sites of `raux_installer.py`, one constructor
per distinct failure.  `installExitNonzero` is the raise at line 456 for a
non-zero exit code of the Provisioning subprocess. -/
inductive InstallError where
  | missingInstallDir
  | installDirNotExists
  | installDirNotWritable
  | tempTestFailed
  | localReleaseMissing
  | localCopyFailed
  | releaseQueryFailed
  | pipInstallFailed
  | downloadFailed
  | extractFailed
  | noInstallScript
  | subprocessRunFailed
  | copyLauncherPs1Failed
  | copyLauncherCmdFailed
  | copyCwdPs1Failed
  | copyCwdCmdFailed
  | installExitNonzero (code : Int)
deriving DecidableEq, Repr

/-- URL of the latest-release metadata endpoint
(`raux_installer.py:494`). -/
def releasesApiURL : String :=
  "https://api.github.com/repos/aigdat/raux/releases/latest"

/-- The fixed fallback download URL (`raux_installer.py:520`). -/
def defaultReleaseURL : String :=
  "https://github.com/aigdat/raux/archive/refs/heads/main.zip"

/-- The Windows-asset test of `raux_installer.py:502-505`: the name ends in
`.zip` and its lower-cased form contains `win` or `windows`. -/
def isWindowsZipAsset (a : Asset) : Bool :=
  pyEndsWith a.name ".zip" &&
    (strIn "win" (pyToLower a.name) || strIn "windows" (pyToLower a.name))

/-- The any-zip-asset test of `raux_installer.py:509-511`. -/
def isZipAsset (a : Asset) : Bool :=
  pyEndsWith a.name ".zip"

/-- Embedding of `get_latest_release_url` (`raux_installer.py:485-528`),
as a function of the HTTP response it receives.  On a 200 response it
returns the first Windows-tagged `.zip` asset, else the first `.zip`
asset, else the `zipball_url`, else the fixed default URL; on a non-200
response it returns the fixed default URL; a raised request exception is
re-raised as `ValueError` (`releaseQueryFailed`). -/
def get_latest_release_url (resp : HttpResp) : Except InstallError String :=
  match resp with
  | .exn => .error .releaseQueryFailed
  | .ok status info =>
    if status == 200 then
      match info.assets.find? isWindowsZipAsset with
      | some a => .ok a.browser_download_url
      | none =>
        match info.assets.find? isZipAsset with
        | some a => .ok a.browser_download_url
        | none =>
          match info.zipball_url with
          | some z => .ok z
          | none => .ok defaultReleaseURL
    else
      .ok defaultReleaseURL

/-- Embedding of `get_specific_version_url` (`raux_installer.py:531-545`):
the leading `v` is stripped for the filename portion only. -/
def get_specific_version_url (version : String) : String :=
  let filename_version := if pyStartsWith version "v" then version.drop 1 else version
  "https://github.com/aigdat/raux/releases/download/" ++ version ++
    "/raux-" ++ filename_version ++ "-setup.zip"

/-- Path join; the Python code runs on Windows but joins with a single
separator, which we render as `/`. -/
def pathJoin (a b : String) : String := a ++ "/" ++ b

/-- One `os.walk` entry: the directory path (`root`) and the plain files
in it (`files`); the `dirs` component is never used by the code. -/
abbrev WalkEntry := String × List String

/-- The first-walk test of `raux_installer.py:264-267`: the entry contains
an `install.py` and the directory path contains `ux_installer`. -/
def entryHasUxInstallPy (e : WalkEntry) : Bool :=
  e.2.contains "install.py" && strIn "ux_installer" e.1

/-- The second-walk test of `raux_installer.py:271-274`: the entry
contains an `install.py`. -/
def entryHasInstallPy (e : WalkEntry) : Bool :=
  e.2.contains "install.py"

/-- Embedding of the install-script search of `raux_installer.py:262-278`:
first walk preferring a directory whose path contains `ux_installer`,
then a walk accepting any `install.py`. -/
def findInstallScript (walk : List WalkEntry) : Option String :=
  match walk.find? entryHasUxInstallPy with
  | some e => some (pathJoin e.1 "install.py")
  | none =>
    match walk.find? entryHasInstallPy with
    | some e => some (pathJoin e.1 "install.py")
    | none => none

/-- Environment of one `install_raux` run: the CLI arguments
(`install_dir`, `debug`, `version`, `local_release`) and an oracle fixing
the outcome of every I/O operation the function branches on, in source
order.  `subprocessResult = none` models `subprocess.run` itself raising;
`some c` models a completed run with exit code `c`. -/
structure Env where
  install_dir : String
  debug : Bool
  version : Option String
  local_release : Option String
  installDirExists : Bool
  writeTestOk : Bool
  tempTestOk : Bool
  localReleaseExists : Bool
  localReleaseBytes : Bytes
  copyLocalOk : Bool
  latestResp : HttpResp
  pipRequestsOk : Bool
  downloadOk : Bool
  downloadBytes : Bytes
  extractOk : Bool
  walk : List WalkEntry
  subprocessResult : Option Int
  ps1CopyOk : Bool
  cmdCopyOk : Bool
  cwdPs1 : Bool
  cwdCmd : Bool
  cwdPs1CopyOk : Bool
  cwdCmdCopyOk : Bool
deriving DecidableEq, Repr

/-- Result of one `install_raux` run: the Python return value or raised
error, the events the run performed, and the content of `raux.zip` at the
moment extraction is attempted (`none` when the run fails before a zip
file is produced). -/
structure RunOut where
  result : Except InstallError Int
  events : List Event
  rauxZip : Option Bytes
deriving Repr

/-- Launcher-copy inner loop of `raux_installer.py:366-397` over the
`files` of one walk entry: every file named `launch_raux.ps1` or
`launch_raux.cmd` is copied into the install directory; a failed copy
raises immediately.  Returns the copy events performed and the raised
error, if any. -/
def copyLaunchersFiles (env : Env) (root : String) :
    List String → List Event × Option InstallError
  | [] => ([], none)
  | f :: rest =>
    if f = "launch_raux.ps1" then
      let ev := Event.copy (pathJoin root f) (pathJoin env.install_dir "launch_raux.ps1")
      if env.ps1CopyOk then
        let (evs, err) := copyLaunchersFiles env root rest
        (ev :: evs, err)
      else
        ([ev], some .copyLauncherPs1Failed)
    else if f = "launch_raux.cmd" then
      let ev := Event.copy (pathJoin root f) (pathJoin env.install_dir "launch_raux.cmd")
      if env.cmdCopyOk then
        let (evs, err) := copyLaunchersFiles env root rest
        (ev :: evs, err)
      else
        ([ev], some .copyLauncherCmdFailed)
    else
      copyLaunchersFiles env root rest

/-- Launcher-copy outer loop of `raux_installer.py:365-397` over the walk
entries. -/
def copyLaunchersWalk (env : Env) :
    List WalkEntry → List Event × Option InstallError
  | [] => ([], none)
  | (root, files) :: rest =>
    match copyLaunchersFiles env root files with
    | (evs, some e) => (evs, some e)
    | (evs, none) =>
      let (evs2, err) := copyLaunchersWalk env rest
      (evs ++ evs2, err)

/-- Whether the walk contains some `launch_raux.ps1`
(`launcher_ps1_found`, set at `raux_installer.py:369`). -/
def ps1Found (walk : List WalkEntry) : Bool :=
  walk.any (fun e => e.2.contains "launch_raux.ps1")

/-- Whether the walk contains some `launch_raux.cmd`
(`launcher_cmd_found`, set at `raux_installer.py:385`). -/
def cmdFound (walk : List WalkEntry) : Bool :=
  walk.any (fun e => e.2.contains "launch_raux.cmd")

/-- The current-directory fallback copy of `launch_raux.cmd`
(`raux_installer.py:428-443`). -/
def cwdCmdCopy (env : Env) : List Event × Option InstallError :=
  if !cmdFound env.walk && env.cwdCmd then
    let ev := Event.copy "launch_raux.cmd" (pathJoin env.install_dir "launch_raux.cmd")
    if env.cwdCmdCopyOk then ([ev], none) else ([ev], some .copyCwdCmdFailed)
  else
    ([], none)

/-- The current-directory fallback copies of `raux_installer.py:411-443`:
`launch_raux.ps1` first, then `launch_raux.cmd`, each only when the walk
did not contain the file and it exists in the current directory. -/
def cwdLauncherCopies (env : Env) : List Event × Option InstallError :=
  if !ps1Found env.walk && env.cwdPs1 then
    let ev := Event.copy "launch_raux.ps1" (pathJoin env.install_dir "launch_raux.ps1")
    if env.cwdPs1CopyOk then
      let (evs, err) := cwdCmdCopy env
      (ev :: evs, err)
    else
      ([ev], some .copyCwdPs1Failed)
  else
    cwdCmdCopy env

/-- The `.env.example` search of `raux_installer.py:237-241`: first walk
entry containing the file. -/
def envExampleRoot (walk : List WalkEntry) : Option String :=
  (walk.find? (fun e => e.2.contains ".env.example")).map (·.1)

/-- The tail of `install_raux` after the Provisioning subprocess returned
exit code `exit_code` (`raux_installer.py:358-478`): launcher copies from
the extracted tree, current-directory fallback copies, then the exit-code
check, which raises for any non-zero code (line 448-456) and returns the
exit code (necessarily 0) otherwise (line 478).  Returns the result and
this section's own events. -/
def afterSubprocess (env : Env) (exit_code : Int) :
    Except InstallError Int × List Event :=
  match copyLaunchersWalk env env.walk with
  | (evs, some e) => (.error e, evs)
  | (evs, none) =>
    match cwdLauncherCopies env with
    | (evs2, some e) => (.error e, evs ++ evs2)
    | (evs2, none) =>
      if exit_code ≠ 0 then
        (.error (.installExitNonzero exit_code), evs ++ evs2)
      else
        (.ok exit_code, evs ++ evs2)

/-- The part of `install_raux` from the `raux.zip` existence check
(`raux_installer.py:217`) to the end: extraction (line 228-233),
`.env.example` copy (warning-only, line 236-254), install-script search
(line 262-278), the Provisioning subprocess invocation (line 322-356) and
the tail `afterSubprocess`.  `raux.zip` was just produced, so the
existence check at line 217 passes.  Returns the result and this
section's own events. -/
def afterZip (env : Env) :
    Except InstallError Int × List Event :=
  if !env.extractOk then
    (.error .extractFailed, [])
  else
    let envEvs : List Event :=
      match envExampleRoot env.walk with
      | some root =>
        [Event.copy (pathJoin root ".env.example")
          (pathJoin (pathJoin (pathJoin env.install_dir "python") "Lib") ".env")]
      | none => []
    match findInstallScript env.walk with
    | none => (.error .noInstallScript, envEvs)
    | some script =>
      let cmd :=
        [pathJoin (pathJoin env.install_dir "python") "python.exe", script,
          "--install-dir", env.install_dir, "--yes", "--force"] ++
          (if env.debug then ["--debug"] else [])
      match env.subprocessResult with
      | none => (.error .subprocessRunFailed, envEvs ++ [Event.subproc cmd])
      | some exit_code =>
        let (res, evs) := afterSubprocess env exit_code
        (res, envEvs ++ [Event.subproc cmd] ++ evs)

/-- The download part of `install_raux` for an already-resolved URL
(`raux_installer.py:192-214`): a `pip install requests` subprocess, then
the archive GET writing `raux.zip`.  `evs0` are the events of the URL
resolution that preceded it. -/
def downloadPhase (env : Env) (url : String) (evs0 : List Event) :
    Except InstallError Bytes × List Event :=
  let evs1 := evs0 ++ [Event.subproc ["python", "-m", "pip", "install", "requests"]]
  if !env.pipRequestsOk then
    (.error .pipInstallFailed, evs1)
  else if !env.downloadOk then
    (.error .downloadFailed, evs1 ++ [Event.network url])
  else
    (.ok env.downloadBytes, evs1 ++ [Event.network url])

/-- The acquisition part of `install_raux` (`raux_installer.py:104-214`),
in source order: missing/absent/non-writable install directory checks
(lines 108-132), temp-directory write test (lines 143-157), then either
the local-release copy (lines 162-178, no network) or URL resolution
(lines 180-187, a network request only in the latest-release case)
followed by `downloadPhase`.  Produces the bytes of `raux.zip` or the
raised error, plus the events performed. -/
def resolveArchive (env : Env) : Except InstallError Bytes × List Event :=
  if env.install_dir = "" then
    (.error .missingInstallDir, [])
  else if !env.installDirExists then
    (.error .installDirNotExists, [])
  else if !env.writeTestOk then
    (.error .installDirNotWritable, [])
  else if !env.tempTestOk then
    (.error .tempTestFailed, [])
  else
    match env.local_release with
    | some lr =>
      if !env.localReleaseExists then
        (.error .localReleaseMissing, [])
      else if !env.copyLocalOk then
        (.error .localCopyFailed, [])
      else
        (.ok env.localReleaseBytes, [Event.copy lr "raux.zip"])
    | none =>
      match env.version with
      | some v => downloadPhase env (get_specific_version_url v) []
      | none =>
        match get_latest_release_url env.latestResp with
        | .error e => (.error e, [Event.network releasesApiURL])
        | .ok url => downloadPhase env url [Event.network releasesApiURL]

/-- Embedding of `install_raux` (`raux_installer.py:40-482`), logging
set-up aside (embedded separately below as the log-operation model):
the acquisition phase `resolveArchive`, then — when a `raux.zip` was
produced — the extraction-to-summary phase `afterZip`.  Every `raise`
inside the big `try` is re-raised by the handler at line 480-482; we
keep the inner error constructor. -/
def install_raux (env : Env) : RunOut :=
  match resolveArchive env with
  | (.error e, evs) => ⟨.error e, evs, none⟩
  | (.ok b, evs) =>
    let (res, evs2) := afterZip env
    ⟨res, evs ++ evs2, some b⟩

/-- The Bootstrap CLI wrapper (`raux_installer.py:574-575`):
`sys.exit(install_raux(...))` exits with the returned code; an uncaught
`ValueError` makes the Python process exit with code 1. -/
def cli_exit (r : Except InstallError Int) : Int :=
  match r with
  | .ok n => n
  | .error _ => 1

/-- Environment of one Provisioning run (`ux_installer/install.py`,
`main`): the install directory and home directory, plus oracle fields for
the I/O outcomes: presence of the bundled `python.exe`, the latest-release
query (`wheelStatus = none` models `requests.get` raising; `some st` a
response with status `st`, on which `raise_for_status` raises when
`st ≥ 400`), the asset list of the release, the wheel download outcome,
the pip exit (`none` = `subprocess.run` raised) and the shortcut
PowerShell outcome. -/
structure ProvEnv where
  install_dir : String
  homeDir : String
  pythonExists : Bool
  wheelStatus : Option Nat
  wheelAssets : List Asset
  wheelDownloadOk : Bool
  pipExit : Option Int
  shortcutOk : Bool
deriving DecidableEq, Repr

/-- Embedding of `download_latest_wheel` (`install.py:67-123`): queries the
latest-release endpoint, finds the first asset ending in `.whl`, downloads
it into `output_folder` under the asset's name.  Every failure is caught
inside the function and surfaces as `none`.  Returns the wheel path (or
`none`) and the network events performed. -/
def download_latest_wheel (env : ProvEnv) (output_folder : String) :
    Option String × List Event :=
  let ev0 := Event.network releasesApiURL
  match env.wheelStatus with
  | none => (none, [ev0])
  | some st =>
    if st ≥ 400 then
      (none, [ev0])
    else
      match env.wheelAssets.find? (fun a => pyEndsWith a.name ".whl") with
      | none => (none, [ev0])
      | some a =>
        let ev1 := Event.network a.browser_download_url
        if env.wheelDownloadOk then
          (some (pathJoin output_folder a.name), [ev0, ev1])
        else
          (none, [ev0, ev1])

/-- Embedding of `install_wheel` (`install.py:126-157`): runs
`pip install --no-deps` under the bundled runtime; returns `true` exactly
when the subprocess completed with exit code 0 (a raised exception or a
non-zero exit code both yield `false`). -/
def install_wheel (env : ProvEnv) (wheel_path python_path : String) :
    Bool × List Event :=
  let ev := Event.subproc [python_path, "-m", "pip", "install", "--no-deps", wheel_path]
  match env.pipExit with
  | none => (false, [ev])
  | some rc => (rc == 0, [ev])

/-- Embedding of `create_shortcuts` (`install.py:160-194`): invokes
PowerShell to write a `.lnk` on the desktop; the whole body is wrapped in
`try/except` that only logs, so the caller observes no outcome.  The
boolean records whether the PowerShell call succeeded; `main` discards
it, exactly as the source discards any outcome of `create_shortcuts`. -/
def create_shortcuts (env : ProvEnv) : List Event × Bool :=
  let desktop := pathJoin env.homeDir "Desktop"
  let ev := Event.shortcut (pathJoin desktop "RAUX.lnk")
    (pathJoin env.install_dir "launch_raux.cmd")
    (pathJoin env.install_dir "raux.ico")
  ([ev], env.shortcutOk)

/-- Embedding of `main` of the Provisioning stage (`install.py:197-257`):
checks the bundled `python.exe`, downloads the latest wheel into a temp
subdirectory, installs it, then creates shortcuts best-effort, returning
0 on success and 1 on any failure. -/
def ux_main (env : ProvEnv) : Int × List Event :=
  let python_path := pathJoin (pathJoin env.install_dir "python") "python.exe"
  if !env.pythonExists then
    (1, [])
  else
    let temp_dir := pathJoin env.install_dir "temp"
    match download_latest_wheel env temp_dir with
    | (none, evs) => (1, evs)
    | (some wheel_path, evs) =>
      match install_wheel env wheel_path python_path with
      | (false, evs2) => (1, evs ++ evs2)
      | (true, evs2) =>
        let (evs3, _ok) := create_shortcuts env
        (0, evs ++ evs2 ++ evs3)

/-- File open modes occurring in the log-file lifecycle: read, append,
truncating write. -/
inductive FMode where
  | r
  | a
  | w
deriving DecidableEq, Repr

/-- One operation on the log file: an open with a mode, or a write of a
string through the currently open handle. -/
inductive LogOp where
  | openF (m : FMode)
  | writeF (s : String)
deriving DecidableEq, Repr

/-- Effect of one log operation on the file content (`none` = file does
not exist): an append-mode open creates the file if missing and keeps its
content, a write-mode open truncates it, a read-mode open leaves it
unchanged, and a write appends at the end of the handle's file. -/
def applyLogOp (c : Option String) : LogOp → Option String
  | .openF .r => c
  | .openF .a => some (c.getD "")
  | .openF .w => some ""
  | .writeF s => some (c.getD "" ++ s)

/-- Runs a sequence of log operations over an initial file content. -/
def runLogOps (ops : List LogOp) (c : Option String) : Option String :=
  ops.foldl applyLogOp c

/-- The open operations performed by `DebugFileHandler.__init__`
(`raux_installer.py:19-33`) given whether the log file exists and the
requested mode: the mode is forced to append when the file exists and
`w` was requested (line 23-25); a peek open follows with mode `r` when
the file exists and the (forced) mode is not `w`, else mode `a`
(line 27); finally `logging.FileHandler` opens the file with the forced
mode.  Returns the operations and the forced mode. -/
def debugFileHandlerOps (ex : Bool) (m : FMode) : List LogOp × FMode :=
  let m := if ex && m == .w then .a else m
  let peek : FMode := if ex && m != .w then .r else .a
  ([.openF peek, .openF m], m)

/-- Header written at `raux_installer.py:300` when the log file exists but
is empty at the mid-run reset. -/
def hdrEmpty : String := "=== RAUX Installer Log ===\n"

/-- Header written at `raux_installer.py:306` when the log file no longer
exists at the mid-run reset. -/
def hdrRecreated : String := "=== RAUX Installer Log (Recreated) ===\n"

/-- The full sequence of log-file operations of one `install_raux` run, as
a function of the initial file content and the messages logged before
(`phase1`) and after (`phase2`) the mid-run handler reset:
mode selection (`raux_installer.py:72-74`), first `DebugFileHandler`
(line 87), phase-1 writes, handler close (line 283-287), the mid-run
existence/size checks with their headers (line 293-306), the second
`DebugFileHandler` with mode `a` (line 315), and phase-2 writes. -/
def installRauxLogOps (init : Option String) (phase1 phase2 : List String) :
    List LogOp :=
  let ex0 := init.isSome
  let log_mode : FMode := if ex0 then .a else .w
  let ops1 := (debugFileHandlerOps ex0 log_mode).1 ++ phase1.map LogOp.writeF
  let c1 := runLogOps ops1 init
  let midOps : List LogOp :=
    match c1 with
    | some s => if s.length = 0 then [.openF .a, .writeF hdrEmpty] else []
    | none => [.openF .a, .writeF hdrRecreated]
  let c2 := runLogOps midOps c1
  let ops2 := (debugFileHandlerOps c2.isSome .a).1 ++ phase2.map LogOp.writeF
  ops1 ++ midOps ++ ops2

/-- Final log-file content of one `install_raux` run. -/
def installRauxLogRun (init : Option String) (phase1 phase2 : List String) :
    Option String :=
  runLogOps (installRauxLogOps init phase1 phase2) init

/-- Concatenation of a list of log messages. -/
def joinAll : List String → String
  | [] => ""
  | s :: r => s ++ joinAll r

/-- A concrete Bootstrap environment in which every filesystem operation
succeeds, the archive comes from a local release file, and the
Provisioning subprocess exits with code 2. -/
def envExit2 : Env :=
  ⟨"C:/raux", false, none, some "rel.zip", true, true, true, true,
    "ARCHIVE", true, .exn, true, true, "DL", true,
    [("tree/ux_installer", ["install.py"])], some 2,
    true, true, false, false, true, true⟩

deriving instance DecidableEq for Except

/-! ## Helper lemmas -/

/-- A Windows-tagged zip asset is in particular a zip asset. -/
theorem isZip_of_isWindowsZip {a : Asset} (h : isWindowsZipAsset a = true) :
    isZipAsset a = true := by
  unfold isWindowsZipAsset at h
  exact (Bool.and_eq_true _ _).mp h |>.1

/-- A nonempty string has nonzero length. -/
theorem length_ne_zero_of_ne_empty {s : String} (h : s ≠ "") : s.length ≠ 0 := by
  intro h0
  apply h
  apply String.ext
  have hd : s.data.length = 0 := h0
  simpa using List.length_eq_zero.mp hd

/-- Running no log operation leaves the content unchanged. -/
theorem runLogOps_nil (c : Option String) : runLogOps [] c = c := rfl

/-- Running a concatenation of log operations runs them in sequence. -/
theorem runLogOps_append (l₁ l₂ : List LogOp) (c : Option String) :
    runLogOps (l₁ ++ l₂) c = runLogOps l₂ (runLogOps l₁ c) := by
  simp [runLogOps]

/-- Writes through an open handle append the messages in order. -/
theorem runLogOps_writes (msgs : List String) (u : String) :
    runLogOps (msgs.map LogOp.writeF) (some u) = some (u ++ joinAll msgs) := by
  induction msgs generalizing u with
  | nil => simp [runLogOps, joinAll]
  | cons m ms ih =>
    simp only [List.map_cons, runLogOps, List.foldl_cons, applyLogOp, Option.getD_some,
      joinAll] at *
    rw [ih, String.append_assoc]

/-- The launcher-copy inner loop emits no network event. -/
theorem network_not_mem_copyLaunchersFiles (env : Env) (root : String) (u : String) :
    ∀ fs, Event.network u ∉ (copyLaunchersFiles env root fs).1 := by
  intro fs
  induction fs with
  | nil => simp [copyLaunchersFiles]
  | cons f rest ih =>
    unfold copyLaunchersFiles
    split
    · split
      · rcases hr : copyLaunchersFiles env root rest with ⟨evs, err⟩
        simp only [hr]
        intro hmem
        rcases List.mem_cons.mp hmem with h | h
        · exact Event.noConfusion h
        · exact ih (by simpa [hr] using h)
      · simp
    · split
      · split
        · rcases hr : copyLaunchersFiles env root rest with ⟨evs, err⟩
          simp only [hr]
          intro hmem
          rcases List.mem_cons.mp hmem with h | h
          · exact Event.noConfusion h
          · exact ih (by simpa [hr] using h)
        · simp
      · exact ih

/-- The launcher-copy outer loop emits no network event. -/
theorem network_not_mem_copyLaunchersWalk (env : Env) (u : String) :
    ∀ w, Event.network u ∉ (copyLaunchersWalk env w).1 := by
  intro w
  induction w with
  | nil => simp [copyLaunchersWalk]
  | cons e rest ih =>
    rcases e with ⟨root, files⟩
    unfold copyLaunchersWalk
    rcases hf : copyLaunchersFiles env root files with ⟨evs, err⟩
    rcases err with _ | er
    · rcases hr : copyLaunchersWalk env rest with ⟨evs2, err2⟩
      simp only [hr]
      intro hmem
      rcases List.mem_append.mp hmem with h | h
      · exact network_not_mem_copyLaunchersFiles env root u files (by simpa [hf] using h)
      · exact ih (by simpa [hr] using h)
    · simp only []
      intro hmem
      exact network_not_mem_copyLaunchersFiles env root u files (by simpa [hf] using hmem)

/-- The current-directory `launch_raux.cmd` fallback emits no network
event. -/
theorem network_not_mem_cwdCmdCopy (env : Env) (u : String) :
    Event.network u ∉ (cwdCmdCopy env).1 := by
  unfold cwdCmdCopy
  split
  · split <;> simp
  · simp

/-- The current-directory launcher fallbacks emit no network event. -/
theorem network_not_mem_cwdLauncherCopies (env : Env) (u : String) :
    Event.network u ∉ (cwdLauncherCopies env).1 := by
  unfold cwdLauncherCopies
  split
  · split
    · rcases hc : cwdCmdCopy env with ⟨evs, err⟩
      simp only [hc]
      intro hmem
      rcases List.mem_cons.mp hmem with h | h
      · exact Event.noConfusion h
      · exact network_not_mem_cwdCmdCopy env u (by simpa [hc] using h)
    · simp
  · exact network_not_mem_cwdCmdCopy env u

/-- The post-subprocess tail of the Bootstrap stage emits no network
event. -/
theorem network_not_mem_afterSubprocess (env : Env) (c : Int) (u : String) :
    Event.network u ∉ (afterSubprocess env c).2 := by
  unfold afterSubprocess
  rcases hw : copyLaunchersWalk env env.walk with ⟨evs, err⟩
  have hevs := network_not_mem_copyLaunchersWalk env u env.walk
  rw [hw] at hevs
  simp only [] at hevs
  rcases err with _ | er
  · rcases hc : cwdLauncherCopies env with ⟨evs2, err2⟩
    have hevs2 := network_not_mem_cwdLauncherCopies env u
    rw [hc] at hevs2
    simp only [] at hevs2
    rcases err2 with _ | er2
    · by_cases hc0 : c = 0 <;> simp_all
    · simp_all
  · simp_all

/-- The whole extraction-to-summary section of the Bootstrap stage emits
no network event. -/
theorem network_not_mem_afterZip (env : Env) (u : String) :
    Event.network u ∉ (afterZip env).2 := by
  unfold afterZip
  by_cases hex : (!env.extractOk) = true
  · simp [hex]
  · rw [if_neg hex]
    rcases hscript : findInstallScript env.walk with _ | script
    · rcases her : envExampleRoot env.walk with _ | root <;>
        simp [her, hscript]
    · rcases hsub : env.subprocessResult with _ | c
      · rcases her : envExampleRoot env.walk with _ | root <;>
          simp [her, hscript, hsub]
      · rcases ha : afterSubprocess env c with ⟨res, evs⟩
        have hevs := network_not_mem_afterSubprocess env c u
        rw [ha] at hevs
        simp only [] at hevs
        rcases her : envExampleRoot env.walk with _ | root <;>
          simp_all [her, hscript, hsub, ha]

/-- With working copies, the launcher-copy inner loop raises no error. -/
theorem copyLaunchersFiles_err_none (env : Env) (root : String)
    (h1 : env.ps1CopyOk = true) (h2 : env.cmdCopyOk = true) :
    ∀ fs, (copyLaunchersFiles env root fs).2 = none := by
  intro fs
  induction fs with
  | nil => simp [copyLaunchersFiles]
  | cons f rest ih =>
    unfold copyLaunchersFiles
    rcases hr : copyLaunchersFiles env root rest with ⟨evs, err⟩
    split
    · simp_all
    · split <;> simp_all

/-- With working copies, the launcher-copy outer loop raises no error. -/
theorem copyLaunchersWalk_err_none (env : Env)
    (h1 : env.ps1CopyOk = true) (h2 : env.cmdCopyOk = true) :
    ∀ w, (copyLaunchersWalk env w).2 = none := by
  intro w
  induction w with
  | nil => simp [copyLaunchersWalk]
  | cons e rest ih =>
    rcases e with ⟨root, files⟩
    unfold copyLaunchersWalk
    rcases hf : copyLaunchersFiles env root files with ⟨evs, err⟩
    have := copyLaunchersFiles_err_none env root h1 h2 files
    rw [hf] at this
    simp only [] at this
    subst this
    rcases hr : copyLaunchersWalk env rest with ⟨evs2, err2⟩
    simp_all

/-- With working copies, the current-directory `launch_raux.cmd`
fallback raises no error. -/
theorem cwdCmdCopy_err_none (env : Env) (h4 : env.cwdCmdCopyOk = true) :
    (cwdCmdCopy env).2 = none := by
  unfold cwdCmdCopy
  split
  · simp [h4]
  · simp

/-- With working copies, the current-directory launcher fallbacks raise
no error. -/
theorem cwdLauncherCopies_err_none (env : Env)
    (h3 : env.cwdPs1CopyOk = true) (h4 : env.cwdCmdCopyOk = true) :
    (cwdLauncherCopies env).2 = none := by
  unfold cwdLauncherCopies
  have := cwdCmdCopy_err_none env h4
  rcases hc : cwdCmdCopy env with ⟨evs, err⟩
  rw [hc] at this
  simp only [] at this
  subst this
  split
  · simp [h3, hc]
  · simp [hc]

/-- With working launcher copies, the post-subprocess tail returns the
subprocess exit code when it is 0 and raises `installExitNonzero`
otherwise (`raux_installer.py:445-478`). -/
theorem afterSubprocess_fst (env : Env) (c : Int)
    (h1 : env.ps1CopyOk = true) (h2 : env.cmdCopyOk = true)
    (h3 : env.cwdPs1CopyOk = true) (h4 : env.cwdCmdCopyOk = true) :
    (afterSubprocess env c).1 =
      if c = 0 then .ok 0 else .error (.installExitNonzero c) := by
  unfold afterSubprocess
  have hw := copyLaunchersWalk_err_none env h1 h2 env.walk
  rcases hwe : copyLaunchersWalk env env.walk with ⟨evs, err⟩
  rw [hwe] at hw
  simp only [] at hw
  subst hw
  have hc := cwdLauncherCopies_err_none env h3 h4
  rcases hce : cwdLauncherCopies env with ⟨evs2, err2⟩
  rw [hce] at hc
  simp only [] at hc
  subst hc
  by_cases hc0 : c = 0 <;> simp [hc0]

/-- The `rauxZip` component is `some` exactly on the branches of
`install_raux` that reach the extraction section, and there the run's
result is the result of `afterZip`. -/
theorem install_raux_result_of_reached (env : Env)
    (h : (install_raux env).rauxZip.isSome = true) :
    (install_raux env).result = (afterZip env).1 := by
  unfold install_raux at *
  rcases hr : resolveArchive env with ⟨r, evs⟩
  rcases r with e | b
  · rw [hr] at h
    simp at h
  · rcases ha : afterZip env with ⟨res, evs2⟩
    simp [ha]

/-- Closed form of the extraction-to-summary result when extraction
succeeds, an install script is found, the subprocess completes with exit
code `c` and every launcher copy works. -/
theorem afterZip_fst (env : Env) (c : Int)
    (hex : env.extractOk = true)
    (hs : (findInstallScript env.walk).isSome = true)
    (hc : env.subprocessResult = some c)
    (h1 : env.ps1CopyOk = true) (h2 : env.cmdCopyOk = true)
    (h3 : env.cwdPs1CopyOk = true) (h4 : env.cwdCmdCopyOk = true) :
    (afterZip env).1 =
      if c = 0 then .ok 0 else .error (.installExitNonzero c) := by
  unfold afterZip
  rw [hex]
  rcases hscript : findInstallScript env.walk with _ | script
  · rw [hscript] at hs
    simp at hs
  · rw [hc]
    have hA := afterSubprocess_fst env c h1 h2 h3 h4
    rcases her : envExampleRoot env.walk with _ | root <;>
      simp [her, hscript, hA]

/-- The extraction-to-summary section raises `noInstallScript` when no
`install.py` is found in the extracted tree. -/
theorem afterZip_fst_noScript (env : Env)
    (hex : env.extractOk = true)
    (hs : findInstallScript env.walk = none) :
    (afterZip env).1 = .error .noInstallScript := by
  unfold afterZip
  rw [hex, hs]
  rcases her : envExampleRoot env.walk with _ | root <;> simp [her]

/-- Acquisition aborts with an error and performs no event at all when
the install directory is absent or not writable. -/
theorem resolveArchive_validation_fail (env : Env)
    (h : env.installDirExists = false ∨ env.writeTestOk = false) :
    (∃ e, (resolveArchive env).1 = .error e) ∧ (resolveArchive env).2 = [] := by
  unfold resolveArchive
  by_cases hd : env.install_dir = ""
  · simp [hd]
  · rw [if_neg hd]
    rcases h with h | h
    · simp [h]
    · by_cases he : env.installDirExists <;> simp [he, h]

/-- With a local release supplied, acquisition performs no network event,
and when it succeeds the archive bytes are those of the local file. -/
theorem resolveArchive_local (env : Env) (lr : String)
    (hl : env.local_release = some lr) :
    (∀ u, Event.network u ∉ (resolveArchive env).2) ∧
    (∀ b, (resolveArchive env).1 = .ok b → b = env.localReleaseBytes) := by
  unfold resolveArchive
  rcases hlr : env.local_release with _ | lr₀
  · rw [hlr] at hl
    cases hl
  · by_cases hd : env.install_dir = "" <;>
      by_cases he : env.installDirExists <;>
      by_cases hw : env.writeTestOk <;>
      by_cases ht : env.tempTestOk <;>
      by_cases hle : env.localReleaseExists <;>
      by_cases hcl : env.copyLocalOk <;>
      simp [hd, he, hw, ht, hle, hcl]

/-! ## Claim theorems -/

/-- C1, counterexample: the claim "the stage's own result equals the exit
code returned by the invoked Provisioning subprocess, including every
non-zero value" fails on the code.  In the concrete environment
`envExit2` the subprocess exits with code 2, yet `install_raux` raises
`installExitNonzero` (source line 456) instead of returning 2, and the
Bootstrap CLI exits with 1, not 2. -/
theorem claim_C1_exit_code_counterexample :
    envExit2.subprocessResult = some 2 ∧
    (install_raux envExit2).result ≠ Except.ok 2 ∧
    cli_exit (install_raux envExit2).result ≠ 2 ∧
    cli_exit (install_raux envExit2).result = 1 := by
  decide

/-- C1, amended: for every run of the Bootstrap stage that reaches the
Provisioning subprocess (acquisition produced `raux.zip`, extraction
succeeded, an install script was found, the subprocess completed) and in
which the launcher copies succeed, a subprocess exit code of 0 is
returned unchanged (CLI exit 0), while any non-zero exit code makes the
stage raise an error, so the Bootstrap CLI exits with the fixed failure
code 1 rather than mirroring the subprocess's code. -/
theorem claim_C1_exit_code_amended (env : Env) (c : Int)
    (hzip : (install_raux env).rauxZip.isSome = true)
    (hex : env.extractOk = true)
    (hs : (findInstallScript env.walk).isSome = true)
    (hc : env.subprocessResult = some c)
    (h1 : env.ps1CopyOk = true) (h2 : env.cmdCopyOk = true)
    (h3 : env.cwdPs1CopyOk = true) (h4 : env.cwdCmdCopyOk = true) :
    (c = 0 → (install_raux env).result = .ok 0 ∧
      cli_exit (install_raux env).result = 0) ∧
    (c ≠ 0 → (install_raux env).result = .error (.installExitNonzero c) ∧
      cli_exit (install_raux env).result = 1) := by
  have hres := install_raux_result_of_reached env hzip
  have hfst := afterZip_fst env c hex hs hc h1 h2 h3 h4
  rw [hres, hfst]
  constructor
  · intro h0
    simp [h0, cli_exit]
  · intro hne
    simp [hne, cli_exit]

/-- C1, witness: the amended theorem applied at `envExit2`, whose
Provisioning subprocess exits with code 2. -/
theorem claim_C1_exit_code_witness :
    (install_raux envExit2).result = .error (.installExitNonzero 2) ∧
    cli_exit (install_raux envExit2).result = 1 :=
  (claim_C1_exit_code_amended envExit2 2 (by decide) (by decide) (by decide)
    (by decide) (by decide) (by decide) (by decide) (by decide)).2 (by decide)

/-- C2: on a 200 latest-release response, the download URL is chosen in
this priority order: the first Windows-tagged `.zip` asset; when no
Windows-tagged `.zip` asset exists, the first `.zip` asset; when no
`.zip` asset exists at all, the zipball URL (and the fixed default URL
when there is no zipball either).  A lower-priority option is never
chosen while a higher-priority one exists. -/
theorem claim_C2_release_url_priority (info : ReleaseInfo) :
    (∀ a, info.assets.find? isWindowsZipAsset = some a →
      a ∈ info.assets ∧ isWindowsZipAsset a = true ∧
      get_latest_release_url (HttpResp.ok 200 info) = .ok a.browser_download_url) ∧
    ((∀ a ∈ info.assets, isWindowsZipAsset a = false) →
      ∀ a, info.assets.find? isZipAsset = some a →
        a ∈ info.assets ∧ isZipAsset a = true ∧
        get_latest_release_url (HttpResp.ok 200 info) = .ok a.browser_download_url) ∧
    ((∀ a ∈ info.assets, isZipAsset a = false) →
      (∀ z, info.zipball_url = some z →
        get_latest_release_url (HttpResp.ok 200 info) = .ok z) ∧
      (info.zipball_url = none →
        get_latest_release_url (HttpResp.ok 200 info) = .ok defaultReleaseURL)) := by
  refine ⟨?_, ?_, ?_⟩
  · intro a ha
    refine ⟨List.mem_of_find?_eq_some ha, List.find?_some ha, ?_⟩
    unfold get_latest_release_url
    simp [ha]
  · intro hw a ha
    have hwn : info.assets.find? isWindowsZipAsset = none :=
      List.find?_eq_none.mpr (by simpa using hw)
    refine ⟨List.mem_of_find?_eq_some ha, List.find?_some ha, ?_⟩
    unfold get_latest_release_url
    simp [hwn, ha]
  · intro hz
    have hzn : info.assets.find? isZipAsset = none :=
      List.find?_eq_none.mpr (by simpa using hz)
    have hwn : info.assets.find? isWindowsZipAsset = none :=
      List.find?_eq_none.mpr (by
        intro x hx hcontra
        have := isZip_of_isWindowsZip hcontra
        simp [hz x hx] at this)
    constructor
    · intro z hzb
      unfold get_latest_release_url
      simp [hwn, hzn, hzb]
    · intro hzb
      unfold get_latest_release_url
      simp [hwn, hzn, hzb]

/-- C2, witness: among a non-zip asset, a Windows-tagged zip and a plain
zip, the Windows-tagged zip is chosen. -/
theorem claim_C2_release_url_priority_witness :
    get_latest_release_url (HttpResp.ok 200
      ⟨[⟨"notes.txt", "T"⟩, ⟨"raux-win.zip", "W"⟩, ⟨"raux.zip", "Z"⟩], some "ZB"⟩) =
      .ok "W" :=
  ((claim_C2_release_url_priority
      ⟨[⟨"notes.txt", "T"⟩, ⟨"raux-win.zip", "W"⟩, ⟨"raux.zip", "Z"⟩], some "ZB"⟩).1
    ⟨"raux-win.zip", "W"⟩ (by decide)).2.2

/-- C3: when the install directory does not exist or the test write into
it fails, the Bootstrap stage aborts with an error and performs no
network request. -/
theorem claim_C3_validation_before_network (env : Env)
    (h : env.installDirExists = false ∨ env.writeTestOk = false) :
    (∃ e, (install_raux env).result = .error e) ∧
    ∀ u, Event.network u ∉ (install_raux env).events := by
  have hval := resolveArchive_validation_fail env h
  unfold install_raux
  rcases hr : resolveArchive env with ⟨r, evs⟩
  rw [hr] at hval
  rcases r with er | b
  · refine ⟨⟨er, by simp⟩, ?_⟩
    have : evs = [] := by simpa using hval.2
    subst this
    simp
  · exfalso
    rcases hval.1 with ⟨e, he⟩
    simp at he

/-- C3, witness: a concrete environment whose install directory does not
exist. -/
theorem claim_C3_validation_before_network_witness :
    (∃ e, (install_raux ⟨"C:/raux", false, none, none, false, true, true,
      false, "B", true, .exn, true, true, "DL", true, [], none,
      true, true, false, false, true, true⟩).result = .error e) ∧
    ∀ u, Event.network u ∉ (install_raux ⟨"C:/raux", false, none, none,
      false, true, true, false, "B", true, .exn, true, true, "DL", true,
      [], none, true, true, false, false, true, true⟩).events :=
  claim_C3_validation_before_network _ (Or.inl rfl)

/-- C4: running the Bootstrap stage against a log file that already
exists with non-empty content never opens the log file in truncating
mode, and the final log content extends the prior content: it is the
prior content followed by the phase-1 messages and the phase-2
messages. -/
theorem claim_C4_log_append (s : String) (p1 p2 : List String) (hs : s ≠ "") :
    LogOp.openF FMode.w ∉ installRauxLogOps (some s) p1 p2 ∧
    installRauxLogRun (some s) p1 p2 = some (s ++ joinAll p1 ++ joinAll p2) := by
  have hstep : ∀ (u : String) (msgs : List String),
      runLogOps (LogOp.openF .r :: LogOp.openF .a :: msgs.map LogOp.writeF) (some u)
        = some (u ++ joinAll msgs) := by
    intro u msgs
    have h2 : runLogOps (LogOp.openF .r :: LogOp.openF .a :: msgs.map LogOp.writeF) (some u)
        = runLogOps (msgs.map LogOp.writeF) (some u) := by
      simp [runLogOps, applyLogOp]
    rw [h2, runLogOps_writes]
  have hlen : ¬s.length = 0 := length_ne_zero_of_ne_empty hs
  have hdbh : debugFileHandlerOps true FMode.a = ([LogOp.openF .r, LogOp.openF .a], FMode.a) := rfl
  have hops : installRauxLogOps (some s) p1 p2 =
      (LogOp.openF .r :: LogOp.openF .a :: p1.map LogOp.writeF) ++
        (LogOp.openF .r :: LogOp.openF .a :: p2.map LogOp.writeF) := by
    unfold installRauxLogOps
    simp [hdbh, hstep, hlen, runLogOps_nil]
  constructor
  · rw [hops]
    simp
  · unfold installRauxLogRun
    rw [hops, runLogOps_append, hstep, hstep]

/-- C4, witness: a run over an existing log containing `PRIOR` with one
message in each phase. -/
theorem claim_C4_log_append_witness :
    LogOp.openF FMode.w ∉ installRauxLogOps (some "PRIOR") ["one\n"] ["two\n"] ∧
    installRauxLogRun (some "PRIOR") ["one\n"] ["two\n"] =
      some ("PRIOR" ++ joinAll ["one\n"] ++ joinAll ["two\n"]) :=
  claim_C4_log_append "PRIOR" ["one\n"] ["two\n"] (by decide)

/-- C5: the versioned download URL keeps the original version string in
the path segment and uses the version with a leading `v` stripped in the
filename segment; concretely, for `v1.2.3+extra` the filename segment
contains `1.2.3+extra`. -/
theorem claim_C5_version_url (v : String) (hv : pyStartsWith v "v" = true) :
    get_specific_version_url v =
      "https://github.com/aigdat/raux/releases/download/" ++ v ++
        "/raux-" ++ v.drop 1 ++ "-setup.zip" ∧
    get_specific_version_url "v1.2.3+extra" =
      "https://github.com/aigdat/raux/releases/download/v1.2.3+extra/raux-1.2.3+extra-setup.zip" := by
  constructor
  · unfold get_specific_version_url
    simp [hv]
  · decide

/-- C5, witness: the theorem applied at `v1.2.3+extra`. -/
theorem claim_C5_version_url_witness :
    get_specific_version_url "v1.2.3+extra" =
      "https://github.com/aigdat/raux/releases/download/" ++ "v1.2.3+extra" ++
        "/raux-" ++ ("v1.2.3+extra" : String).drop 1 ++ "-setup.zip" :=
  (claim_C5_version_url "v1.2.3+extra" (by decide)).1

/-- C6: when the bundled runtime binary is absent, the Provisioning
stage returns 1 and performs no event at all — in particular no network
request. -/
theorem claim_C6_missing_runtime (env : ProvEnv) (h : env.pythonExists = false) :
    (ux_main env).1 = 1 ∧ (ux_main env).2 = [] ∧
      ∀ u, Event.network u ∉ (ux_main env).2 := by
  unfold ux_main
  simp [h]

/-- C6, witness: a concrete environment without the bundled runtime. -/
theorem claim_C6_missing_runtime_witness :
    (ux_main ⟨"C:/raux", "C:/u", false, some 200, [⟨"r.whl", "WU"⟩], true,
      some 0, true⟩).1 = 1 ∧
    (ux_main ⟨"C:/raux", "C:/u", false, some 200, [⟨"r.whl", "WU"⟩], true,
      some 0, true⟩).2 = [] ∧
    ∀ u, Event.network u ∉ (ux_main ⟨"C:/raux", "C:/u", false, some 200,
      [⟨"r.whl", "WU"⟩], true, some 0, true⟩).2 :=
  claim_C6_missing_runtime _ rfl

/-- C7: with a local archive path supplied and the file present, the
Bootstrap stage performs no network request, and the archive bytes used
for extraction are exactly the bytes of the local file. -/
theorem claim_C7_local_release (env : Env) (lr : String)
    (hl : env.local_release = some lr) (_hle : env.localReleaseExists = true) :
    (∀ u, Event.network u ∉ (install_raux env).events) ∧
    (∀ b, (install_raux env).rauxZip = some b → b = env.localReleaseBytes) := by
  have hloc := resolveArchive_local env lr hl
  unfold install_raux
  rcases hr : resolveArchive env with ⟨r, evs⟩
  rw [hr] at hloc
  rcases r with er | b
  · refine ⟨?_, ?_⟩
    · intro u
      have := hloc.1 u
      simpa using this
    · intro b hb
      simp at hb
  · rcases ha : afterZip env with ⟨res, evs2⟩
    refine ⟨?_, ?_⟩
    · intro u hmem
      simp only [List.mem_append] at hmem
      rcases hmem with hm | hm
      · exact (hloc.1 u) (by simpa using hm)
      · have := network_not_mem_afterZip env u
        rw [ha] at this
        exact this (by simpa using hm)
    · intro b' hb
      have hb2 : b = b' := by simpa using hb
      subst hb2
      exact hloc.2 b (by simp)

/-- C7, witness: a concrete environment with a present local release
file. -/
theorem claim_C7_local_release_witness :
    (∀ u, Event.network u ∉ (install_raux envExit2).events) ∧
    (∀ b, (install_raux envExit2).rauxZip = some b →
      b = envExit2.localReleaseBytes) :=
  claim_C7_local_release envExit2 "rel.zip" rfl rfl

/-- C8: the Provisioning stage returns exactly 0 or 1; whenever it
reaches the shortcut-creation step (runtime present, wheel downloaded,
wheel installed with exit code 0) it returns 0, and its result is
unchanged when the shortcut PowerShell invocation fails (the
`shortcutOk` oracle is flipped). -/
theorem claim_C8_shortcut_best_effort (env : ProvEnv) :
    ((ux_main env).1 = 0 ∨ (ux_main env).1 = 1) ∧
    (env.pythonExists = true →
      (download_latest_wheel env (pathJoin env.install_dir "temp")).1.isSome = true →
      env.pipExit = some 0 →
      (ux_main env).1 = 0) ∧
    (ux_main env).1 =
      (ux_main ⟨env.install_dir, env.homeDir, env.pythonExists, env.wheelStatus,
        env.wheelAssets, env.wheelDownloadOk, env.pipExit, !env.shortcutOk⟩).1 := by
  refine ⟨?_, ?_, ?_⟩
  · unfold ux_main
    by_cases hp : (!env.pythonExists) = true
    · simp [hp]
    · rw [if_neg hp]
      rcases hd : download_latest_wheel env (pathJoin env.install_dir "temp") with ⟨w, evs⟩
      rcases w with _ | wp
      · simp [hd]
      · rcases hi : install_wheel env wp
            (pathJoin (pathJoin env.install_dir "python") "python.exe") with ⟨ok, evs2⟩
        rcases ok <;> simp [hd, hi]
  · intro hp hw hpip
    unfold ux_main
    rcases hd : download_latest_wheel env (pathJoin env.install_dir "temp") with ⟨w, evs⟩
    rw [hd] at hw
    rcases w with _ | wp
    · simp at hw
    · have hi : install_wheel env wp
          (pathJoin (pathJoin env.install_dir "python") "python.exe") =
          (true, [Event.subproc [pathJoin (pathJoin env.install_dir "python") "python.exe",
            "-m", "pip", "install", "--no-deps", wp]]) := by
        unfold install_wheel
        rw [hpip]
        simp
      simp [hp, hd, hi]
  · rfl

/-- C8, witness: a run that reaches the shortcut step with a failing
PowerShell invocation still returns 0. -/
theorem claim_C8_shortcut_best_effort_witness :
    (ux_main ⟨"C:/raux", "C:/u", true, some 200, [⟨"r.whl", "WU"⟩], true,
      some 0, false⟩).1 = 0 :=
  (claim_C8_shortcut_best_effort ⟨"C:/raux", "C:/u", true, some 200,
    [⟨"r.whl", "WU"⟩], true, some 0, false⟩).2.1 rfl (by decide) rfl

/-- C9: the Bootstrap stage prefers the first walk entry holding an
`install.py` whose directory path contains `ux_installer`; only when no
such entry exists anywhere does it take the first entry holding any
`install.py`; and only when that also fails does the stage abort with
the `noInstallScript` error. -/
theorem claim_C9_install_script_preference (walk : List WalkEntry) :
    (∀ e, walk.find? entryHasUxInstallPy = some e →
      findInstallScript walk = some (pathJoin e.1 "install.py")) ∧
    ((∀ e ∈ walk, entryHasUxInstallPy e = false) →
      ∀ e, walk.find? entryHasInstallPy = some e →
        findInstallScript walk = some (pathJoin e.1 "install.py")) ∧
    ((∀ e ∈ walk, entryHasInstallPy e = false) → findInstallScript walk = none) ∧
    (∀ env : Env, env.walk = walk → env.extractOk = true →
      findInstallScript walk = none →
      (install_raux env).rauxZip.isSome = true →
      (install_raux env).result = .error .noInstallScript) := by
  refine ⟨?_, ?_, ?_, ?_⟩
  · intro e he
    unfold findInstallScript
    simp [he]
  · intro hnone e he
    have hn : walk.find? entryHasUxInstallPy = none :=
      List.find?_eq_none.mpr (by simpa using hnone)
    unfold findInstallScript
    simp [hn, he]
  · intro hnone
    have hn1 : walk.find? entryHasInstallPy = none :=
      List.find?_eq_none.mpr (by simpa using hnone)
    have hn2 : walk.find? entryHasUxInstallPy = none :=
      List.find?_eq_none.mpr (by
        intro e he hcontra
        have hpy : entryHasInstallPy e = true :=
          ((Bool.and_eq_true _ _).mp hcontra).1
        simp [hnone e he] at hpy)
    unfold findInstallScript
    simp [hn1, hn2]
  · intro env hwalk hex hns hzip
    rw [install_raux_result_of_reached env hzip]
    exact afterZip_fst_noScript env hex (hwalk ▸ hns)

/-- C9, witness: with a plain `install.py` entry listed before a
`ux_installer` entry, the `ux_installer` one is chosen. -/
theorem claim_C9_install_script_preference_witness :
    findInstallScript [("e/x", ["install.py"]), ("e/y/ux_installer", ["install.py"])] =
      some (pathJoin "e/y/ux_installer" "install.py") :=
  (claim_C9_install_script_preference
      [("e/x", ["install.py"]), ("e/y/ux_installer", ["install.py"])]).1
    ("e/y/ux_installer", ["install.py"]) (by decide)

/-- C10: a latest-release response with a non-200 status (and no raised
exception) does not fail the query: the fixed fallback URL is
returned. -/
theorem claim_C10_non_200_fallback (status : Nat) (info : ReleaseInfo)
    (h : status ≠ 200) :
    get_latest_release_url (HttpResp.ok status info) = .ok defaultReleaseURL := by
  unfold get_latest_release_url
  simp [h]

/-- C10, witness: a 403 response with a perfectly usable asset list
still resolves to the fallback URL. -/
theorem claim_C10_non_200_fallback_witness :
    get_latest_release_url (HttpResp.ok 403
      ⟨[⟨"raux-win.zip", "W"⟩], some "ZB"⟩) = .ok defaultReleaseURL :=
  claim_C10_non_200_fallback 403 ⟨[⟨"raux-win.zip", "W"⟩], some "ZB"⟩ (by decide)

end Raux
